import Mathlib

/-!
Verification of the MCS AI2-THOR controller adaptation layer
(`src/python_api/machine_common_sense/mcs_controller_ai2thor.py`).

The Python source is shallowly embedded below.  Numeric parameters are
modelled as rationals (`ℚ`); Python keyword-argument maps become association
lists from key strings to a `Value` that is either a number or a string; code
that can raise a Python exception is modelled with `Except Unit`.

The repository modules `mcs_util.py`, `mcs_action.py` and
`mcs_return_status.py` are imported by the controller but are not part of the
provided sources; the few helpers the controller needs from them are modelled
from the specification and carry a doc comment starting with
`Modelled from the spec:`.  Everything else is translated directly from the
controller source.
-/

namespace MCS

/-- A Python value passed as a keyword argument: either a number (modelled as
a rational) or a non-numeric value (modelled as a string). -/
inductive Value where
  | num (q : ℚ)
  | str (s : String)
deriving DecidableEq

/-- A Python `**kwargs` map: an association list from key to value. -/
abbrev KwArgs := List (String × Value)

/-- `kwargs.get(key, default)` — first binding of `key`, else the default. -/
def KwArgs.get (kwargs : KwArgs) (key : String) (d : Value) : Value :=
  match kwargs.lookup key with
  | some v => v
  | none => d

/- Constants of `MCS_Controller_AI2THOR` (source lines 28-74). -/

/-- `GRID_SIZE = 0.1` -/
def GRID_SIZE : ℚ := 1/10

/-- `MAX_MOVE_DISTANCE = 0.5` -/
def MAX_MOVE_DISTANCE : ℚ := 1/2

/-- `MAX_BABY_FORCE = 25.0` -/
def MAX_BABY_FORCE : ℚ := 25

/-- `MAX_REACH_DISTANCE = 1.0` -/
def MAX_REACH_DISTANCE : ℚ := 1

/-- `DEFAULT_HORIZON = 0` -/
def DEFAULT_HORIZON : ℚ := 0

/-- `DEFAULT_ROTATION = 0` -/
def DEFAULT_ROTATION : ℚ := 0

/-- `DEFAULT_FORCE = 0.5` -/
def DEFAULT_FORCE : ℚ := 1/2

/-- `DEFAULT_AMOUNT = 0.5` -/
def DEFAULT_AMOUNT : ℚ := 1/2

/-- `DEFAULT_DIRECTION = 0` -/
def DEFAULT_DIRECTION : ℚ := 0

/-- `DEFAULT_OBJECT_MOVE_AMOUNT = 1` -/
def DEFAULT_OBJECT_MOVE_AMOUNT : ℚ := 1

/-- `MAX_ROTATION = 360` -/
def MAX_ROTATION : ℚ := 360

/-- `MIN_ROTATION = -360` -/
def MIN_ROTATION : ℚ := -360

/-- `MAX_HORIZON = 180` -/
def MAX_HORIZON : ℚ := 180

/-- `MIN_HORIZON = -180` -/
def MIN_HORIZON : ℚ := -180

/-- `MAX_FORCE = 1` -/
def MAX_FORCE : ℚ := 1

/-- `MIN_FORCE = 0` -/
def MIN_FORCE : ℚ := 0

/-- `MAX_AMOUNT = 1` -/
def MAX_AMOUNT : ℚ := 1

/-- `MIN_AMOUNT = 0` -/
def MIN_AMOUNT : ℚ := 0

/-- `ROTATION_KEY = 'rotation'` -/
def ROTATION_KEY : String := "rotation"

/-- `HORIZON_KEY = 'horizon'` -/
def HORIZON_KEY : String := "horizon"

/-- `FORCE_KEY = 'force'` -/
def FORCE_KEY : String := "force"

/-- `AMOUNT_KEY = 'amount'` -/
def AMOUNT_KEY : String := "amount"

/-- `OBJECT_DIRECTION_X_KEY = 'objectDirectionX'` -/
def OBJECT_DIRECTION_X_KEY : String := "objectDirectionX"

/-- `OBJECT_DIRECTION_Y_KEY = 'objectDirectionY'` -/
def OBJECT_DIRECTION_Y_KEY : String := "objectDirectionY"

/-- `OBJECT_DIRECTION_Z_KEY = 'objectDirectionZ'` -/
def OBJECT_DIRECTION_Z_KEY : String := "objectDirectionZ"

/-- `RECEPTACLE_DIRECTION_X = 'receptacleObjectDirectionX'` -/
def RECEPTACLE_DIRECTION_X : String := "receptacleObjectDirectionX"

/-- `RECEPTACLE_DIRECTION_Y = 'receptacleObjectDirectionY'` -/
def RECEPTACLE_DIRECTION_Y : String := "receptacleObjectDirectionY"

/-- `RECEPTACLE_DIRECTION_Z = 'receptacleObjectDirectionZ'` -/
def RECEPTACLE_DIRECTION_Z : String := "receptacleObjectDirectionZ"

/-- `FORCE_ACTIONS = ["ThrowObject", "PushObject", "PullObject"]` -/
def FORCE_ACTIONS : List String := ["ThrowObject", "PushObject", "PullObject"]

/-- `OBJECT_MOVE_ACTIONS = ["CloseObject", "OpenObject"]` -/
def OBJECT_MOVE_ACTIONS : List String := ["CloseObject", "OpenObject"]

/-- `MOVE_ACTIONS = ["MoveAhead", "MoveLeft", "MoveRight", "MoveBack"]` -/
def MOVE_ACTIONS : List String := ["MoveAhead", "MoveLeft", "MoveRight", "MoveBack"]

/-- Modelled from the spec: `ACTION_LIST = [item.value for item in MCS_Action]`
uses the `mcs_action.py` module, which is not among the provided sources.  The
vocabulary is reconstructed from the spec's action classes
("move/rotate/pickup/open/close/throw/push/pull/pass") together with every
action string the controller source itself references. -/
def ACTION_LIST : List String :=
  ["MoveAhead", "MoveLeft", "MoveRight", "MoveBack", "RotateLook",
   "PickupObject", "PutObject", "DropObject", "ThrowObject", "PushObject",
   "PullObject", "OpenObject", "CloseObject", "Pass"]

/-- Modelled from the spec: `MCS_Util.is_number(value, key)` from the absent
`mcs_util.py`.  Spec 4.1: each parameter "is independently type-checked: if
not numeric, replaced with its documented default", so the check holds exactly
of numeric values. -/
def is_number (v : Value) : Bool :=
  match v with
  | .num _ => true
  | .str _ => false

/-- Modelled from the spec: `MCS_Util.is_in_range(value, min, max, default,
key)` from the absent `mcs_util.py`.  Spec 4.1: "out-of-range values are
replaced by default (clamp-to-default, not clamp-to-boundary)", over the
closed ranges the spec lists. -/
def is_in_range (v lo hi d : ℚ) : ℚ :=
  if lo ≤ v ∧ v ≤ hi then v else d

/-- The local `rotation` of `validate_and_convert_params` after the
type-check: `kwargs.get` with the given default, replaced by the default again
when non-numeric (source lines 141, 154-155 and analogues). -/
def typed_num (kwargs : KwArgs) (key : String) (d : ℚ) : ℚ :=
  match KwArgs.get kwargs key (.num d) with
  | .num q => q
  | .str _ => d

/-- The local `rotation` after lines 141 and 154-155: type-checked, never
range-checked. -/
def normalized_rotation (kwargs : KwArgs) : ℚ :=
  typed_num kwargs ROTATION_KEY DEFAULT_ROTATION

/-- The local `horizon` after lines 142, 157-158 and 191-192: type-checked,
then range-checked against `[MIN_HORIZON, MAX_HORIZON]`. -/
def normalized_horizon (kwargs : KwArgs) : ℚ :=
  is_in_range (typed_num kwargs HORIZON_KEY DEFAULT_HORIZON)
    MIN_HORIZON MAX_HORIZON DEFAULT_HORIZON

/-- The local `amount` after lines 143, 160-165 and 193: fetched with
`DEFAULT_AMOUNT` as the `kwargs.get` default; only when the fetched value is
not numeric does the action-class default apply (`DEFAULT_OBJECT_MOVE_AMOUNT`
for open/close actions, `DEFAULT_AMOUNT` otherwise); finally range-checked
against `[MIN_AMOUNT, MAX_AMOUNT]` with `DEFAULT_AMOUNT` as fallback. -/
def normalized_amount (action : String) (kwargs : KwArgs) : ℚ :=
  let a :=
    match KwArgs.get kwargs AMOUNT_KEY (.num DEFAULT_AMOUNT) with
    | .num q => q
    | .str _ =>
        if action ∈ OBJECT_MOVE_ACTIONS then DEFAULT_OBJECT_MOVE_AMOUNT
        else DEFAULT_AMOUNT
  is_in_range a MIN_AMOUNT MAX_AMOUNT DEFAULT_AMOUNT

/-- The local `force` after lines 144, 167-168 and 194: type-checked, then
range-checked against `[MIN_FORCE, MAX_FORCE]`. -/
def normalized_force (kwargs : KwArgs) : ℚ :=
  is_in_range (typed_num kwargs FORCE_KEY DEFAULT_FORCE)
    MIN_FORCE MAX_FORCE DEFAULT_FORCE

/-- A direction component after its type check (lines 146-151, 171-188):
type-checked, never range-checked. -/
def normalized_direction (kwargs : KwArgs) (key : String) : ℚ :=
  typed_num kwargs key DEFAULT_DIRECTION

/-- The local `moveMagnitude` after lines 140 and 198-206: initialised to
`MAX_MOVE_DISTANCE`, then overwritten by three successive `if` statements
keyed on the action class. -/
def derived_moveMagnitude (action : String) (amount force : ℚ) : ℚ :=
  let m := MAX_MOVE_DISTANCE
  let m := if action ∈ FORCE_ACTIONS then force * MAX_BABY_FORCE else m
  let m := if action ∈ OBJECT_MOVE_ACTIONS then amount else m
  if action ∈ MOVE_ACTIONS then amount * MAX_MOVE_DISTANCE else m

/-- The dict returned by `validate_and_convert_params` (lines 227-235);
`rotation` is wrapped into a `y`-only vector, the direction parameters into
3-axis vectors. -/
structure StepParameters where
  objectId : Option Value
  receptacleObjectId : Option Value
  rotation_y : ℚ
  horizon : ℚ
  moveMagnitude : ℚ
  objectDirection_x : ℚ
  objectDirection_y : ℚ
  objectDirection_z : ℚ
  receptacleObjectDirection_x : ℚ
  receptacleObjectDirection_y : ℚ
  receptacleObjectDirection_z : ℚ
deriving DecidableEq

/-- `validate_and_convert_params(self, action, **kwargs)` (lines 139-235).
`enable_noise` is the instance flag `self.__enable_noise`; `noise` supplies
the three `generate_noise()` samples drawn on lines 210-212 (unused when
noise is disabled). -/
def validate_and_convert_params (enable_noise : Bool) (noise : ℚ × ℚ × ℚ)
    (action : String) (kwargs : KwArgs) : StepParameters :=
  let rotation := normalized_rotation kwargs
  let horizon := normalized_horizon kwargs
  let amount := normalized_amount action kwargs
  let force := normalized_force kwargs
  let moveMagnitude := derived_moveMagnitude action amount force
  let rotation := if enable_noise then rotation * (1 + noise.1) else rotation
  let horizon := if enable_noise then horizon * (1 + noise.2.1) else horizon
  let moveMagnitude :=
    if enable_noise then moveMagnitude * (1 + noise.2.2) else moveMagnitude
  { objectId := kwargs.lookup "objectId"
    receptacleObjectId := kwargs.lookup "receptacleObjectId"
    rotation_y := rotation
    horizon := horizon
    moveMagnitude := moveMagnitude
    objectDirection_x := normalized_direction kwargs OBJECT_DIRECTION_X_KEY
    objectDirection_y := normalized_direction kwargs OBJECT_DIRECTION_Y_KEY
    objectDirection_z := normalized_direction kwargs OBJECT_DIRECTION_Z_KEY
    receptacleObjectDirection_x := normalized_direction kwargs RECEPTACLE_DIRECTION_X
    receptacleObjectDirection_y := normalized_direction kwargs RECEPTACLE_DIRECTION_Y
    receptacleObjectDirection_z := normalized_direction kwargs RECEPTACLE_DIRECTION_Z }

/-- `mcs_action_to_ai2thor_action(self, action)` (lines 267-284).  The enum
values `MCS_Action.CLOSE_OBJECT.value`, `MCS_Action.DROP_OBJECT.value` and
`MCS_Action.OPEN_OBJECT.value` are the strings "CloseObject", "DropObject"
and "OpenObject" (the first and last are also spelled out in the
controller's own `OBJECT_MOVE_ACTIONS` constant). -/
def mcs_action_to_ai2thor_action (action : String) : String :=
  if action = "CloseObject" then "MCSCloseObject"
  else if action = "DropObject" then "DropHandObject"
  else if action = "OpenObject" then "MCSOpenObject"
  else action

/-- The `MCS_Goal` record built by `retrieve_goal` (constructor call, lines
297-304).  `last_step` keeps the optional integer step ceiling; `metadata` is
a free-form dict modelled as an association list. -/
structure MCS_Goal where
  action_list : Option (List (List String)) := none
  info_list : List String := []
  last_step : Option Int := none
  task_list : List String := []
  type_list : List String := []
  metadata : List (String × String) := []
deriving DecidableEq

/-- The `goal` sub-mapping of a scene configuration: each Python dict key is
an `Option` field whose `isSome` models `key in goal_config`. -/
structure GoalConfig where
  action_list : Option (List (List String)) := none
  info_list : Option (List String) := none
  last_step : Option Int := none
  task_list : Option (List String) := none
  type_list : Option (List String) := none
  metadata : Option (List (String × String)) := none
deriving DecidableEq

/-- `retrieve_goal(self, current_scene)` (lines 294-304).  The argument is
`current_scene['goal'] if 'goal' in current_scene else {}` — `none` when the
scene configuration has no "goal" key.  A conditional expression
`goal_config[k] if 'type_list' in goal_config else d` indexes `goal_config`
with `k`, which raises `KeyError` (modelled as `.error ()`) when the gate key
`type_list` is present but `k` itself is absent. -/
def retrieve_goal (goal_key : Option GoalConfig) : Except Unit MCS_Goal :=
  let gc := goal_key.getD {}
  let info : Except Unit (List String) :=
    if gc.type_list.isSome then
      match gc.info_list with
      | some l => .ok l
      | none => .error ()
    else .ok []
  let task : Except Unit (List String) :=
    if gc.type_list.isSome then
      match gc.task_list with
      | some l => .ok l
      | none => .error ()
    else .ok []
  let typl : Except Unit (List String) :=
    if gc.type_list.isSome then
      match gc.type_list with
      | some l => .ok l
      | none => .error ()
    else .ok []
  match info with
  | .error e => .error e
  | .ok i =>
    match task with
    | .error e => .error e
    | .ok t =>
      match typl with
      | .error e => .error e
      | .ok ty =>
        .ok { action_list := gc.action_list
              info_list := i
              last_step := gc.last_step
              task_list := t
              type_list := ty
              metadata := gc.metadata.getD [] }

/-- `retrieve_action_list(self, goal, step_number)` (lines 286-292). -/
def retrieve_action_list (goal : Option MCS_Goal) (step_number : Nat) :
    List String :=
  match goal with
  | some g =>
    match g.action_list with
    | some l =>
      match l[step_number]? with
      | some e => if e.length > 0 then e else ACTION_LIST
      | none => ACTION_LIST
    | none => ACTION_LIST
  | none => ACTION_LIST

/-- The diagnostic printed by the `except KeyError` handler of
`retrieve_return_status` (line 347). -/
def return_status_message (s : String) : String :=
  "Return status " ++ s ++ " is not currently supported."

/-- `retrieve_return_status(self, scene_event)` (lines 339-349), returning the
final status string together with the list of diagnostics printed.  `known` is
the list of member names of the `MCS_Return_Status` enum (the module is not
among the provided sources, so the membership list is kept as a parameter);
`lastActionStatus` is `scene_event.metadata`'s optional entry for that key.
The Python control flow is mirrored exactly:
  - try: a missing `lastActionStatus` key raises `KeyError` on the dict
    access; a present, truthy (non-empty) string not in the enum raises
    `KeyError` on the enum lookup; a falsy (empty) string leaves the initial
    `UNDEFINED` value in place.
  - except KeyError: the handler itself indexes
    `scene_event.metadata['lastActionStatus']` while building its message, so
    when the key is missing the handler raises a second `KeyError` and prints
    nothing.
  - finally: `return return_status` always executes and discards any pending
    exception, so the caller always receives a plain value. -/
def retrieve_return_status (known : List String)
    (lastActionStatus : Option String) : String × List String :=
  let tried : Except Unit String :=
    match lastActionStatus with
    | none => .error ()
    | some s =>
      if s ≠ "" then
        if s ∈ known then .ok s else .error ()
      else .ok "UNDEFINED"
  match tried with
  | .ok s => (s, [])
  | .error _ =>
    match lastActionStatus with
    | some s => ("UNDEFINED", [return_status_message s])
    | none => ("UNDEFINED", [])

/-- Modelled from the spec: a decimal-number parser backing the "values
auto-coerced to float when parseable, else kept as string" clause of the
action DSL (spec section 6); used only by `input_to_action_and_params`, whose
module `mcs_util.py` is not among the provided sources. -/
def parseDecimal (s : String) : Option ℚ :=
  let core := fun (t : String) =>
    match t.splitOn "." with
    | [w] => (w.toNat?).map (fun n => (n : ℚ))
    | [w, f] =>
      match w.toNat?, f.toNat? with
      | some nw, some nf => some ((nw : ℚ) + (nf : ℚ) / (10 ^ f.length))
      | _, _ => none
    | _ => none
  if s.startsWith "-" then (core (s.drop 1)).map (fun q => -q)
  else core s

/-- Modelled from the spec: `MCS_Util.input_to_action_and_params(input_str)`
from the absent `mcs_util.py`.  Spec section 6: the single-string form
"ActionName, key=value, ..." is split on commas into the action name and
`key=value` parameter pairs, with values auto-coerced to numbers when
parseable and kept as strings otherwise. -/
def input_to_action_and_params (s : String) : String × KwArgs :=
  match s.splitOn "," with
  | [] => (s, [])
  | a :: rest =>
    (a.trim,
     rest.filterMap (fun p =>
       match p.splitOn "=" with
       | [k, v] =>
         some (k.trim,
           match parseDecimal v.trim with
           | some q => Value.num q
           | none => Value.str v.trim)
       | _ => none))

/-- The per-scene mutable state owned by the orchestrator that `step` reads
or writes: `self.__step_number` and `self.__goal` (set by `start_scene`),
plus the instance noise flag `self.__enable_noise`. -/
structure ControllerState where
  step_number : Nat
  goal : MCS_Goal
  enable_noise : Bool := false
deriving DecidableEq

/-- The last-step guard of `step` (line 241):
`self.__goal.last_step is not None and self.__goal.last_step < self.__step_number`. -/
def last_step_guard (st : ControllerState) : Bool :=
  match st.goal.last_step with
  | some l => decide (l < (st.step_number : Int))
  | none => false

/-- Python's `',' in action` (line 246): character containment in the action
string. -/
def contains_comma (s : String) : Bool :=
  s.toList.contains ','

/-- The simulator invocation produced by an accepted `step` call: the
AI2-THOR action name and the converted parameters passed to
`self.__controller.step(self.wrap_step(action=action, **params))`
(line 265). -/
structure SimCall where
  action : String
  params : StepParameters
deriving DecidableEq

/-- `step(self, action, **kwargs)` (lines 238-265), with the simulator and
output wrapping abstracted to the produced `SimCall`: the result is `none`
exactly when the call is refused by the last-step guard and no simulator call
is made, and `some c` when the simulator receives the call `c`.  Python's
`',' in action` is the character-containment test on the string.  `noise`
supplies the `generate_noise()` samples used only when noise is enabled. -/
def step (st : ControllerState) (action : String) (kwargs : KwArgs)
    (noise : ℚ × ℚ × ℚ) : Option SimCall × ControllerState :=
  if last_step_guard st then (none, st)
  else
    let ak :=
      if contains_comma action then input_to_action_and_params action
      else (action, kwargs)
    let action := if ak.1 ∈ ACTION_LIST then ak.1 else "Pass"
    let st' := { st with step_number := st.step_number + 1 }
    let params := validate_and_convert_params st.enable_noise noise action ak.2
    (some { action := mcs_action_to_ai2thor_action action, params := params }, st')

/-- `start_scene(self, config_data)` (lines 117-131), restricted to the state
`step` depends on: the step counter is reset to 0 and the goal is resolved
from the configuration's optional "goal" sub-mapping. -/
def start_scene (goal_key : Option GoalConfig) (enable_noise : Bool := false) :
    Except Unit ControllerState :=
  (retrieve_goal goal_key).map
    (fun g => { step_number := 0, goal := g, enable_noise := enable_noise })

/-- Claim C2, evaluated on the code at the failing input: calling
`validate_and_convert_params` for `OpenObject` or `CloseObject` with no
`amount` keyword normalizes the amount to `1/2` (hence `moveMagnitude = 1/2`),
not to `1` as the claim and the code's own inline comment ("The default for
open/close is 1") state: `kwargs.get` already defaults the missing key to
`DEFAULT_AMOUNT = 0.5`, which is numeric, so the `DEFAULT_OBJECT_MOVE_AMOUNT
= 1` branch is reached only for a supplied non-numeric amount.  The movement
half of the claim (default amount `0.5` for `MoveAhead`) does hold. -/
theorem c2_open_close_unsupplied_amount_is_half :
    normalized_amount "OpenObject" [] = 1/2 ∧
    normalized_amount "CloseObject" [] = 1/2 ∧
    (validate_and_convert_params false (0,0,0) "OpenObject" []).moveMagnitude = 1/2 ∧
    (validate_and_convert_params false (0,0,0) "CloseObject" []).moveMagnitude = 1/2 ∧
    normalized_amount "MoveAhead" [] = 1/2 ∧
    DEFAULT_OBJECT_MOVE_AMOUNT = 1 ∧
    normalized_amount "OpenObject" [(AMOUNT_KEY, .str "not a number")] = 1 := by
  refine ⟨?_, ?_, ?_, ?_, ?_, rfl, ?_⟩
  · norm_num [normalized_amount, KwArgs.get, is_in_range, DEFAULT_AMOUNT,
      MIN_AMOUNT, MAX_AMOUNT]
  · norm_num [normalized_amount, KwArgs.get, is_in_range, DEFAULT_AMOUNT,
      MIN_AMOUNT, MAX_AMOUNT]
  · norm_num [validate_and_convert_params, normalized_amount, KwArgs.get,
      is_in_range, derived_moveMagnitude, DEFAULT_AMOUNT, MIN_AMOUNT,
      MAX_AMOUNT, FORCE_ACTIONS, OBJECT_MOVE_ACTIONS, MOVE_ACTIONS,
      MAX_MOVE_DISTANCE]
    decide
  · norm_num [validate_and_convert_params, normalized_amount, KwArgs.get,
      is_in_range, derived_moveMagnitude, DEFAULT_AMOUNT, MIN_AMOUNT,
      MAX_AMOUNT, FORCE_ACTIONS, OBJECT_MOVE_ACTIONS, MOVE_ACTIONS,
      MAX_MOVE_DISTANCE]
    decide
  · norm_num [normalized_amount, KwArgs.get, is_in_range, DEFAULT_AMOUNT,
      MIN_AMOUNT, MAX_AMOUNT]
  · norm_num [normalized_amount, KwArgs.get, is_in_range, AMOUNT_KEY,
      List.lookup, OBJECT_MOVE_ACTIONS, DEFAULT_OBJECT_MOVE_AMOUNT,
      DEFAULT_AMOUNT, MIN_AMOUNT, MAX_AMOUNT]

/-- Claim C10: the `rotation` parameter is type-checked but never
range-checked — any numeric rotation value, however far outside
`[MIN_ROTATION, MAX_ROTATION]`, is placed unchanged into the `y` component of
the payload's rotation vector when noise is disabled, even though the
`MIN_ROTATION = -360` and `MAX_ROTATION = 360` constants are defined. -/
theorem c10_rotation_never_range_checked (action : String) (r : ℚ) :
    (validate_and_convert_params false (0,0,0) action
        [(ROTATION_KEY, .num r)]).rotation_y = r
  ∧ MIN_ROTATION = -360 ∧ MAX_ROTATION = 360 := by
  refine ⟨?_, rfl, rfl⟩
  simp [validate_and_convert_params, normalized_rotation, typed_num,
    KwArgs.get, ROTATION_KEY, List.lookup]

/-- Claim C6: a numeric value supplied outside the documented range —
horizon outside `[-180, 180]`, amount outside `[0, 1]`, force outside
`[0, 1]` — normalizes to that parameter's documented default
(`DEFAULT_HORIZON = 0`, `DEFAULT_AMOUNT = 0.5`, `DEFAULT_FORCE = 0.5`), not
to the nearest range boundary. -/
theorem c6_out_of_range_yields_default (x : ℚ) (action : String) :
    ((x < -180 ∨ 180 < x) →
        (validate_and_convert_params false (0,0,0) action
            [(HORIZON_KEY, .num x)]).horizon = DEFAULT_HORIZON)
  ∧ ((x < 0 ∨ 1 < x) →
        normalized_amount action [(AMOUNT_KEY, .num x)] = DEFAULT_AMOUNT)
  ∧ ((x < 0 ∨ 1 < x) →
        normalized_force [(FORCE_KEY, .num x)] = DEFAULT_FORCE) := by
  refine ⟨?_, ?_, ?_⟩
  · intro h
    have hn : ¬(MIN_HORIZON ≤ x ∧ x ≤ MAX_HORIZON) := by
      simp only [MIN_HORIZON, MAX_HORIZON]
      rcases h with h | h <;> intro hc <;> rcases hc with ⟨h1, h2⟩ <;> linarith
    simp [validate_and_convert_params, normalized_horizon, typed_num,
      KwArgs.get, HORIZON_KEY, List.lookup, is_in_range, hn]
  · intro h
    have hn : ¬(MIN_AMOUNT ≤ x ∧ x ≤ MAX_AMOUNT) := by
      simp only [MIN_AMOUNT, MAX_AMOUNT]
      rcases h with h | h <;> intro hc <;> rcases hc with ⟨h1, h2⟩ <;> linarith
    simp [normalized_amount, KwArgs.get, AMOUNT_KEY, List.lookup, is_in_range, hn]
  · intro h
    have hn : ¬(MIN_FORCE ≤ x ∧ x ≤ MAX_FORCE) := by
      simp only [MIN_FORCE, MAX_FORCE]
      rcases h with h | h <;> intro hc <;> rcases hc with ⟨h1, h2⟩ <;> linarith
    simp [normalized_force, typed_num, KwArgs.get, FORCE_KEY, List.lookup,
      is_in_range, hn]

/-- Witness for C6 at the concrete out-of-range value 999. -/
theorem c6_witness :
    (validate_and_convert_params false (0,0,0) "RotateLook"
        [(HORIZON_KEY, .num 999)]).horizon = DEFAULT_HORIZON
  ∧ normalized_amount "RotateLook" [(AMOUNT_KEY, .num 999)] = DEFAULT_AMOUNT
  ∧ normalized_force [(FORCE_KEY, .num 999)] = DEFAULT_FORCE :=
  ⟨(c6_out_of_range_yields_default 999 "RotateLook").1 (by norm_num),
   (c6_out_of_range_yields_default 999 "RotateLook").2.1 (by norm_num),
   (c6_out_of_range_yields_default 999 "RotateLook").2.2 (by norm_num)⟩

/-- Claim C5: with noise disabled, for numeric in-range `amount` and `force`
the payload's `moveMagnitude` is `force * 25` for force-class actions,
`amount` unmodified for open/close-class actions, `amount * 0.5` for
movement-class actions and `0.5` for every other action. -/
theorem c5_moveMagnitude_by_action_class (action : String) (amount force : ℚ)
    (ha : 0 ≤ amount ∧ amount ≤ 1) (hf : 0 ≤ force ∧ force ≤ 1) :
    (validate_and_convert_params false (0,0,0) action
        [(AMOUNT_KEY, .num amount), (FORCE_KEY, .num force)]).moveMagnitude =
      if action ∈ FORCE_ACTIONS then force * 25
      else if action ∈ OBJECT_MOVE_ACTIONS then amount
      else if action ∈ MOVE_ACTIONS then amount * (1/2)
      else 1/2 := by
  have hA : normalized_amount action
      [(AMOUNT_KEY, .num amount), (FORCE_KEY, .num force)] = amount := by
    simp [normalized_amount, KwArgs.get, AMOUNT_KEY, FORCE_KEY, List.lookup,
      is_in_range, MIN_AMOUNT, MAX_AMOUNT, ha.1, ha.2]
  have hF : normalized_force
      [(AMOUNT_KEY, .num amount), (FORCE_KEY, .num force)] = force := by
    simp [normalized_force, typed_num, KwArgs.get, AMOUNT_KEY, FORCE_KEY,
      List.lookup, is_in_range, MIN_FORCE, MAX_FORCE, hf.1, hf.2]
  have hv : (validate_and_convert_params false (0,0,0) action
      [(AMOUNT_KEY, .num amount), (FORCE_KEY, .num force)]).moveMagnitude =
      derived_moveMagnitude action amount force := by
    simp [validate_and_convert_params, hA, hF]
  rw [hv]
  by_cases h1 : action ∈ FORCE_ACTIONS
  · have h1m := h1
    simp only [FORCE_ACTIONS, List.mem_cons, List.not_mem_nil, or_false] at h1m
    have h2 : action ∉ OBJECT_MOVE_ACTIONS := by
      rcases h1m with rfl | rfl | rfl <;> decide
    have h3 : action ∉ MOVE_ACTIONS := by
      rcases h1m with rfl | rfl | rfl <;> decide
    simp [derived_moveMagnitude, h1, h2, h3, MAX_BABY_FORCE]
  · by_cases h2 : action ∈ OBJECT_MOVE_ACTIONS
    · have h2m := h2
      simp only [OBJECT_MOVE_ACTIONS, List.mem_cons, List.not_mem_nil,
        or_false] at h2m
      have h3 : action ∉ MOVE_ACTIONS := by
        rcases h2m with rfl | rfl <;> decide
      simp [derived_moveMagnitude, h1, h2, h3]
    · by_cases h3 : action ∈ MOVE_ACTIONS
      · simp [derived_moveMagnitude, h1, h2, h3, MAX_MOVE_DISTANCE]
      · simp [derived_moveMagnitude, h1, h2, h3, MAX_MOVE_DISTANCE]

/-- Witness for C5 at `ThrowObject` with `amount = 1`, `force = 1`:
`moveMagnitude = 25`. -/
theorem c5_witness :
    (validate_and_convert_params false (0,0,0) "ThrowObject"
        [(AMOUNT_KEY, .num 1), (FORCE_KEY, .num 1)]).moveMagnitude = 25 := by
  have h := c5_moveMagnitude_by_action_class "ThrowObject" 1 1
    (by norm_num) (by norm_num)
  simpa [FORCE_ACTIONS] using h

/-- Claim C9: `retrieve_action_list` returns exactly
`goal.action_list[step_number]` when that entry exists and is a non-empty
list, and otherwise (goal absent, `action_list` absent, index out of bounds,
or entry empty) returns the full action vocabulary `ACTION_LIST`. -/
theorem c9_action_list_passthrough (goal : Option MCS_Goal) (n : Nat) :
    (∀ g l e, goal = some g → g.action_list = some l → l[n]? = some e →
        e ≠ [] → retrieve_action_list goal n = e)
  ∧ ((¬ ∃ g l e, goal = some g ∧ g.action_list = some l ∧
        l[n]? = some e ∧ e ≠ []) →
      retrieve_action_list goal n = ACTION_LIST) := by
  constructor
  · rintro g l e rfl hal hget hne
    have hpos : 0 < e.length := List.length_pos.mpr hne
    simp [retrieve_action_list, hal, hget, hpos]
  · intro h
    rcases goal with _ | g
    · simp [retrieve_action_list]
    · rcases hal : g.action_list with _ | l
      · simp [retrieve_action_list, hal]
      · rcases hget : l[n]? with _ | e
        · simp [retrieve_action_list, hal, hget]
        · rcases he : e with _ | ⟨x, xs⟩
          · simp [retrieve_action_list, hal, hget, he]
          · exact absurd ⟨g, l, e, rfl, hal, hget, by simp [he]⟩ h

/-- Witness for C9: a goal whose per-step whitelist for step 0 is the
non-empty list `["MoveAhead"]` is passed through unchanged. -/
theorem c9_witness :
    retrieve_action_list (some { action_list := some [["MoveAhead"]] }) 0
      = ["MoveAhead"] :=
  (c9_action_list_passthrough
      (some { action_list := some [["MoveAhead"]] }) 0).1
    _ _ _ rfl rfl (by simp) (by simp)

/-- Claim C3 counterexample: when the `lastActionStatus` key is missing from
the scene event's metadata, `retrieve_return_status` does return the
`UNDEFINED` sentinel without raising, but — contrary to the claim's "with a
diagnostic message emitted in those degraded cases" — it emits NO diagnostic:
the `except KeyError` handler itself indexes the missing key while building
its message, the `print` never executes, and the `finally: return` discards
the handler's own `KeyError`.  The second component of the result, the list
of printed diagnostics, is empty. -/
theorem c3_missing_status_no_diagnostic :
    retrieve_return_status ["UNDEFINED", "OUT_OF_REACH"] none
      = ("UNDEFINED", []) := rfl

/-- Claim C3 (amended): `retrieve_return_status` never propagates an
exception — the `finally: return` always yields a plain value — and an
unknown or missing `lastActionStatus` maps to `UNDEFINED`; the diagnostic
message is emitted only when the status string is present, non-empty and
unknown to the enum, not when the key is missing entirely. -/
theorem c3_return_status_guaranteed (known : List String)
    (las : Option String) :
    (las = none → retrieve_return_status known las = ("UNDEFINED", []))
  ∧ (∀ s, las = some s → s ≠ "" → s ∉ known →
      retrieve_return_status known las
        = ("UNDEFINED", [return_status_message s]))
  ∧ (∀ s, las = some s → s ∉ known →
      (retrieve_return_status known las).1 = "UNDEFINED") := by
  refine ⟨?_, ?_, ?_⟩
  · rintro rfl; rfl
  · rintro s rfl hne hnk
    simp [retrieve_return_status, hne, hnk]
  · rintro s rfl hnk
    by_cases he : s = ""
    · simp [retrieve_return_status, he]
    · simp [retrieve_return_status, he, hnk]

/-- Witness for C3 at the spec's own scenario: status string "SUCCESS" with
an enum that does not contain it yields `UNDEFINED` (with the handler's
diagnostic, since the key is present). -/
theorem c3_witness :
    retrieve_return_status ["UNDEFINED", "OUT_OF_REACH"] (some "SUCCESS")
      = ("UNDEFINED", [return_status_message "SUCCESS"]) :=
  (c3_return_status_guaranteed ["UNDEFINED", "OUT_OF_REACH"]
      (some "SUCCESS")).2.1 "SUCCESS" rfl (by decide) (by decide)

/-- Claim C4 counterexample: `retrieve_goal` can fail.  On a scene whose goal
sub-mapping contains `type_list` but not `info_list`, the conditional
expression `goal_config['info_list'] if 'type_list' in goal_config else []`
indexes the absent `info_list` key and raises `KeyError`, so no Goal is
produced at all. -/
theorem c4_type_list_gate_keyerror :
    retrieve_goal (some { type_list := some ["intuitive physics"] })
      = .error () := rfl

/-- Claim C4 (amended): for every scene configuration in which the presence
of `type_list` in the goal sub-mapping is accompanied by `info_list` and
`task_list`, `retrieve_goal` succeeds and produces a fully-populated Goal
with the documented defaults (`none` for absent `action_list` and
`last_step`, empty lists and empty metadata otherwise), where `info_list`,
`task_list` and `type_list` are each populated from the config if and only
if the key `type_list` is present — each field gated on `type_list` rather
than its own key. -/
theorem c4_retrieve_goal_defaults (cfg : Option GoalConfig)
    (h : (cfg.getD {}).type_list.isSome →
      (cfg.getD {}).info_list.isSome ∧ (cfg.getD {}).task_list.isSome) :
    retrieve_goal cfg = .ok
      { action_list := (cfg.getD {}).action_list
        info_list :=
          if (cfg.getD {}).type_list.isSome
          then (cfg.getD {}).info_list.getD [] else []
        last_step := (cfg.getD {}).last_step
        task_list :=
          if (cfg.getD {}).type_list.isSome
          then (cfg.getD {}).task_list.getD [] else []
        type_list := (cfg.getD {}).type_list.getD []
        metadata := (cfg.getD {}).metadata.getD [] } := by
  by_cases hty : (cfg.getD {}).type_list.isSome
  · obtain ⟨hinfo, htask⟩ := h hty
    obtain ⟨tl, htl⟩ := Option.isSome_iff_exists.mp hty
    obtain ⟨il, hil⟩ := Option.isSome_iff_exists.mp hinfo
    obtain ⟨ta, hta⟩ := Option.isSome_iff_exists.mp htask
    simp [retrieve_goal, htl, hil, hta]
  · have hnone : (cfg.getD {}).type_list = none :=
      Option.not_isSome_iff_eq_none.mp hty
    simp [retrieve_goal, hnone]

/-- Witness for C4 at a concrete config with all three gated keys present. -/
theorem c4_witness :
    retrieve_goal
        (some { info_list := some ["a"]
                task_list := some ["b"]
                type_list := some ["c"] })
      = .ok { action_list := none
              info_list := ["a"]
              last_step := none
              task_list := ["b"]
              type_list := ["c"]
              metadata := [] } := by
  have h := c4_retrieve_goal_defaults
    (some { info_list := some ["a"]
            task_list := some ["b"]
            type_list := some ["c"] }) (by simp)
  simpa using h

/-- Claim C1 counterexample: the last-step guard is strict.  With
`goal.last_step = 2`, after two accepted step calls the counter equals 2 and
the guard `last_step < step_number` (2 < 2) does not fire, so a THIRD
`step("MoveAhead")` is still accepted: it produces a simulator call rather
than the claimed `None`. -/
theorem c1_third_step_accepted :
    ((step (step (step
        { step_number := 0, goal := { last_step := some 2 } }
        "MoveAhead" [] (0,0,0)).2
        "MoveAhead" [] (0,0,0)).2
        "MoveAhead" [] (0,0,0)).1).isSome = true := rfl

/-- Claim C1 (amended): once the step counter has strictly exceeded
`Goal.last_step`, every further `step` call is refused — it returns no result
and leaves the state unchanged, so no simulator call is made.  With
`last_step = 2` this first happens on the fourth call, when the counter has
reached 3. -/
theorem c1_step_refused_after_last_step_passed (st : ControllerState)
    (a : String) (k : KwArgs) (nz : ℚ × ℚ × ℚ) (l : Int)
    (hl : st.goal.last_step = some l) (h : l < (st.step_number : Int)) :
    step st a k nz = (none, st) := by
  simp [step, last_step_guard, hl, h]

/-- Witness for C1's amended claim: the fourth call of the `last_step = 2`
scenario (counter at 3) is refused with no simulator call and no state
change. -/
theorem c1_witness :
    step { step_number := 3, goal := { last_step := some 2 } }
        "MoveAhead" [] (0,0,0)
      = (none, { step_number := 3, goal := { last_step := some 2 } }) :=
  c1_step_refused_after_last_step_passed _ _ _ _ 2 rfl (by decide)

/-- Claim C7: a comma-free action string outside the known vocabulary never
hard-fails: `step` substitutes the no-op "Pass", and the simulator receives
the translated "Pass" action, not the unrecognized string. -/
theorem c7_unknown_action_becomes_pass (st : ControllerState) (a : String)
    (k : KwArgs) (nz : ℚ × ℚ × ℚ) (hg : last_step_guard st = false)
    (hc : contains_comma a = false) (ha : a ∉ ACTION_LIST) :
    ((step st a k nz).1).map SimCall.action = some "Pass" := by
  simp [step, hg, hc, ha, mcs_action_to_ai2thor_action]

/-- Witness for C7 at the spec's own scenario: `step("Fly")` makes the
simulator receive "Pass". -/
theorem c7_witness :
    ((step { step_number := 0, goal := {} } "Fly" [] (0,0,0)).1).map
        SimCall.action = some "Pass" :=
  c7_unknown_action_becomes_pass _ _ _ _ rfl (by decide) (by decide)

/-- Claim C8: the step counter increases by exactly 1 on every call that
passes the last-step guard — including calls whose unknown action is
substituted with Pass, since the increment does not depend on the action —
while a call rejected by the guard returns no result and leaves the whole
orchestrator state unchanged. -/
theorem c8_step_counter (st : ControllerState) (a : String) (k : KwArgs)
    (nz : ℚ × ℚ × ℚ) :
    (last_step_guard st = false →
        (step st a k nz).2 = { st with step_number := st.step_number + 1 }
      ∧ ((step st a k nz).1).isSome = true)
  ∧ (last_step_guard st = true → step st a k nz = (none, st)) := by
  constructor
  · intro hg
    constructor <;> simp [step, hg]
  · intro hg
    simp [step, hg]

/-- Witness for C8: an accepted call with the unknown action "Fly" still
increments the counter from 0 to 1 and produces a simulator call. -/
theorem c8_witness :
    (step { step_number := 0, goal := {} } "Fly" [] (0,0,0)).2
        = { step_number := 1, goal := {} }
      ∧ ((step { step_number := 0, goal := {} } "Fly" [] (0,0,0)).1).isSome
        = true := by
  have h := (c8_step_counter { step_number := 0, goal := {} }
    "Fly" [] (0,0,0)).1 rfl
  simpa using h

end MCS
